import Mathlib

/-!
Verification of the PaymentDataAI client core: the text utilities, markdown
pipe-table renderer and HTML sanitizer (client utilities module), the
socket session/connection manager (`useSocket.js`), the conversation
controller (`App.jsx`), and the response renderer
(`DataSummaryResult.jsx`), shallowly embedded in Lean 4.

JavaScript strings become `String`, optional envelope fields become
`Option String` (`none` models the field being absent / `undefined`),
and JavaScript truthiness is made explicit wherever the source branches
on it (`!text` on a string is `text = ""`, `x || y` on strings falls
through on the empty string).
-/

namespace PaymentDataAI

/-! ## Text utilities (markdown utilities module) -/

/-- A JavaScript value, as far as the utilities' dynamic type checks
(`typeof text !== 'string'`) observe it: a string, or some non-string
value.  Truthiness of a string is nonemptiness. -/
inductive JSVal where
  | str (s : String)
  | num (n : Int)
  | boolean (b : Bool)
  | nullVal
  | undefinedVal
  deriving DecidableEq, Repr

/-- JavaScript `String.prototype.trim()`: drop whitespace from both
ends.  (Executable model of the library method, defined over the
character list.) -/
def jsTrim (s : String) : String :=
  String.mk ((((s.toList.dropWhile Char.isWhitespace).reverse.dropWhile
    Char.isWhitespace)).reverse)

/-- Worker for `jsSplit`: accumulate the current segment (reversed) and
cut at each separator character. -/
def splitCharAux (sep : Char) : List Char → List Char → List String
  | [], acc => [String.mk acc.reverse]
  | c :: rest, acc =>
    if c = sep then String.mk acc.reverse :: splitCharAux sep rest []
    else splitCharAux sep rest (c :: acc)

/-- JavaScript `String.prototype.split(sep)` for a one-character
separator (the source only splits on `'|'` and `'\n'` and on `'_'`):
segments between separator occurrences, empty segments kept. -/
def jsSplit (s : String) (sep : Char) : List String :=
  splitCharAux sep s.toList []

/-- Whether the character list `l` starts with the pattern `pat`
(both arguments in full). -/
def chListStarts : List Char → List Char → Bool
  | _, [] => true
  | [], _ :: _ => false
  | c :: cs, p :: ps => c = p && chListStarts cs ps

/-- JavaScript `String.prototype.startsWith(pat)`, case-sensitive. -/
def jsStartsWith (s pat : String) : Bool :=
  chListStarts s.toList pat.toList

/-- Embedding of `capitalizeWord` on a genuine string argument:
`word.charAt(0).toUpperCase() + word.slice(1).toLowerCase()`, with the
`!word` falsy guard returning `''` on the empty string. -/
def capitalizeWord (word : String) : String :=
  match word.toList with
  | [] => ""
  | c :: rest => String.mk (c.toUpper :: rest.map Char.toLower)

/-- The regex `.replace(/^_+|_+$/g, '')`: strip leading and trailing
underscores. -/
def stripEdgeUnderscores (s : String) : String :=
  String.mk (((s.toList.dropWhile (· = '_')).reverse.dropWhile (· = '_')).reverse)

/-- Worker for the regex `.replace(/_+/g, '_')`: a run of underscores is
emitted as one underscore (`prevU` records whether the previous character
was an underscore). -/
def collapseAux : List Char → Bool → List Char
  | [], _ => []
  | c :: rest, prevU =>
    if c = '_' then
      if prevU then collapseAux rest true
      else '_' :: collapseAux rest true
    else c :: collapseAux rest false

/-- The regex `.replace(/_+/g, '_')`: collapse each internal run of
underscores to a single one. -/
def collapseUnderscores (s : String) : String :=
  String.mk (collapseAux s.toList false)

/-- Embedding of `convertSnakeCaseToTitle` on a genuine string argument.  The source's
`!text` guard returns `text` itself on the empty string; a string without
`_` is returned unchanged; otherwise edge underscores are stripped, runs
collapsed, and the result split on `_`, filtered of empty words,
capitalized and joined with single spaces. -/
def convertSnakeCaseToTitle (text : String) : String :=
  if text = "" then text
  else if !(text.toList.contains '_') then text
  else
    let cleaned := collapseUnderscores (stripEdgeUnderscores text)
    String.intercalate " "
      (((jsSplit cleaned '_').filter (· ≠ "")).map capitalizeWord)

/-- Wrapper: `convertSnakeCaseToTitle` at the JavaScript level: a non-string
argument is returned unchanged by the `typeof text !== 'string'` guard. -/
def convertSnakeCaseToTitleVal : JSVal → JSVal
  | .str s => .str (convertSnakeCaseToTitle s)
  | v => v

/-- One character of `escapeHtml`.  The source escapes by round-tripping
through a DOM text node (`div.textContent = text; div.innerHTML`), whose
serialization escapes exactly `&`, `<` and `>` in text content; this
models that serialization. -/
def escapeChar (c : Char) : String :=
  if c = '&' then "&amp;"
  else if c = '<' then "&lt;"
  else if c = '>' then "&gt;"
  else String.singleton c

/-- Embedding of `escapeHtml` on a genuine string argument (non-strings yield `''`). -/
def escapeHtml (text : String) : String :=
  String.join (text.toList.map escapeChar)

/-! ## Table renderer (`convertMarkdownToTable`) -/

/-- The `'<p class="text-gray-500 text-sm">No table data available</p>'`
string returned when the argument is falsy or not a string. -/
def noTableDataMsg : String :=
  "<p class=\"text-gray-500 text-sm\">No table data available</p>"

/-- The raw-text fallback: the original input HTML-escaped inside a
preformatted block. -/
def rawFallback (markdown : String) : String :=
  "<pre class=\"bg-gray-100 p-3 rounded text-sm overflow-x-auto\">"
    ++ escapeHtml markdown ++ "</pre>"

/-- The lines: `markdown.trim().split('\n')`. -/
def tableLines (markdown : String) : List String :=
  jsSplit (jsTrim markdown) '\n'

/-- Headers from the first line: split on `|`, trim each segment, drop
empty segments, apply `convertSnakeCaseToTitle` to each. -/
def parseHeaderLine (headerLine : String) : List String :=
  ((((jsSplit headerLine '|').map jsTrim)).filter (· ≠ "")).map
    convertSnakeCaseToTitle

/-- The headers the renderer extracts from an input. -/
def parsedHeaders (markdown : String) : List String :=
  parseHeaderLine ((tableLines markdown).headD "")

/-- The data lines: everything after the header line and the separator
line (`lines.slice(2)`). -/
def parsedDataLines (markdown : String) : List String :=
  (tableLines markdown).drop 2

/-- The cell-normalisation loop
`for (let i = 0; i < headers.length; i++) cells[i] || ''`: exactly
`headers.length` cells, out-of-range reads yielding `''`. -/
def rowCells (headers : List String) (cells : List String) : List String :=
  (List.range headers.length).map (fun i => cells.getD i "")

/-- The cells of one data line, or `none` when the source skips the line
(blank after trimming, or contributing zero cells after filtering). -/
def rowOfLine (headers : List String) (line : String) : Option (List String) :=
  if jsTrim line = "" then none
  else if ((((jsSplit line '|').map jsTrim)).filter (· ≠ "")).length > 0 then
    some (rowCells headers ((((jsSplit line '|').map jsTrim)).filter (· ≠ "")))
  else none

/-- One `<td>` of the rendered table body. -/
def tdHtml (cellValue : String) : String :=
  "<td class=\"px-4 py-3 border-b border-gray-200 text-gray-700\">"
    ++ escapeHtml cellValue ++ "</td>"

/-- One `<th>` of the rendered table head. -/
def thHtml (header : String) : String :=
  "<th class=\"bg-gray-50 text-left font-semibold text-gray-900 px-4 py-3 border-b border-gray-200\">"
    ++ escapeHtml header ++ "</th>"

/-- One rendered data row (`''` when the line is skipped); `idx` is the
position in `dataLines`, driving the alternating row class. -/
def renderRowHtml (headers : List String) (idx : Nat) (line : String) : String :=
  match rowOfLine headers line with
  | none => ""
  | some cells =>
    let rowClass := if idx % 2 = 0 then "bg-white" else "bg-gray-50"
    "<tr class=\"" ++ rowClass ++ " hover:bg-gray-100\">"
      ++ String.join (cells.map tdHtml) ++ "</tr>"

/-- The table produced on the table path, given headers and data lines. -/
def tableHtml (headers : List String) (dataLines : List String) : String :=
  "<div class=\"overflow-x-auto\"><table class=\"response-table\">"
    ++ "<thead><tr>" ++ String.join (headers.map thHtml) ++ "</tr></thead>"
    ++ "<tbody>"
    ++ String.join (dataLines.enum.map (fun p => renderRowHtml headers p.1 p.2))
    ++ "</tbody></table></div>"

/-- Embedding of `convertMarkdownToTable`.  The `!markdown` falsy guard returns the
no-table-data paragraph on the empty string; fewer than 2 trimmed lines
or zero parsed headers yield the raw-text fallback; otherwise the table
is rendered.  The source's `try`/`catch` wraps code that is total in
this embedding, so the catch branch (same raw-text fallback) is
unreachable here. -/
def convertMarkdownToTable (markdown : String) : String :=
  if markdown = "" then noTableDataMsg
  else
    let lines := tableLines markdown
    if lines.length < 2 then rawFallback markdown
    else
      let headers := parsedHeaders markdown
      if headers.length = 0 then rawFallback markdown
      else tableHtml headers (parsedDataLines markdown)

/-- The rendered data rows of an input, as lists of (pre-escape) cell
texts: the structured content of the `<tbody>` the renderer emits. -/
def tableRows (markdown : String) : List (List String) :=
  (parsedDataLines markdown).filterMap (rowOfLine (parsedHeaders markdown))

/-! ## HTML sanitizer (`sanitizeHtml`)

The source parses the fragment into a DOM tree (`tempDiv.innerHTML =
html`), mutates the tree, and serialises it back.  The embedding works
on the parsed tree: an `HtmlNode` forest stands for the fragment, with
tag and attribute names as the (lowercase-normalised) DOM exposes them. -/

/-- A parsed DOM forest (the children of `tempDiv`): empty, a text node
followed by the rest, or an element — tag, attribute list (name,
value), child forest — followed by the rest.  A single inductive so
that recursion over the tree is structural. -/
inductive Html where
  | nil
  | textCons (s : String) (rest : Html)
  | elemCons (tag : String) (attrs : List (String × String))
      (children : Html) (rest : Html)
  deriving DecidableEq, Repr

/-- The list `const dangerousElements = ['script', 'iframe', 'object', 'embed', 'link', 'style']`. -/
def dangerousElements : List String :=
  ["script", "iframe", "object", "embed", "link", "style"]

/-- The list `const dangerousAttributes = ['onload', 'onerror', 'onclick', 'onmouseover', 'onfocus', 'onblur']`. -/
def dangerousAttributes : List String :=
  ["onload", "onerror", "onclick", "onmouseover", "onfocus", "onblur"]

/-- The per-element attribute pass: drop the dangerous event-handler
attributes, and drop an `href` or `src` attribute whose value starts
with the case-sensitive prefix `javascript:`. -/
def cleanAttrs (attrs : List (String × String)) : List (String × String) :=
  (attrs.filter (fun a => !(dangerousAttributes.contains a.1))).filter
    (fun a => !((a.1 = "href" || a.1 = "src") && jsStartsWith a.2 "javascript:"))

/-- The sanitizer on the parsed forest: an element whose tag is
dangerous is removed wholesale, descendants included
(`querySelectorAll(tag)` + `el.remove()`); every remaining element
gets the attribute pass; text nodes pass through. -/
def sanitizeNodes : Html → Html
  | .nil => .nil
  | .textCons s ns => .textCons s (sanitizeNodes ns)
  | .elemCons tag attrs children ns =>
    if dangerousElements.contains tag then sanitizeNodes ns
    else .elemCons tag (cleanAttrs attrs) (sanitizeNodes children) (sanitizeNodes ns)

/-- Embedding of `sanitizeHtml` on an already-parsed fragment (the falsy /
non-string guard returning `''` corresponds to the empty forest). -/
def sanitizeHtml (fragment : Html) : Html :=
  sanitizeNodes fragment

/-- Decides that an attribute list carries no dangerous event handler
and no `javascript:`-prefixed `href`/`src`. -/
def attrsSafe (attrs : List (String × String)) : Bool :=
  attrs.all (fun a =>
    !(dangerousAttributes.contains a.1)
    && !((a.1 = "href" || a.1 = "src") && jsStartsWith a.2 "javascript:"))

/-- Decides that a forest contains no element of a dangerous tag kind
and no unsafe attribute, at any depth. -/
def nodesSafe : Html → Bool
  | .nil => true
  | .textCons _ ns => nodesSafe ns
  | .elemCons tag attrs children ns =>
    !(dangerousElements.contains tag) && attrsSafe attrs
      && nodesSafe children && nodesSafe ns

/-! ## Session/connection manager (`useSocket.js`) -/

/-- The `connectionStatus` values the hook assigns. -/
inductive ConnStatus where
  | disconnected
  | connecting
  | connected
  | reconnecting
  | errorStatus
  | failed
  deriving DecidableEq, Repr

/-- The cap `const maxReconnectAttempts = 5`. -/
def maxReconnectAttempts : Nat := 5

/-- The hook's connection-related state: `connectionStatus`,
`isConnected`, the `reconnectAttempts` ref, and whether
`socket.disconnect()` has been called (tearing the transport down, so
that socket.io delivers no further lifecycle events). -/
structure ConnState where
  status : ConnStatus
  isConnected : Bool
  attempts : Nat
  tornDown : Bool
  deriving DecidableEq, Repr

/-- The transport lifecycle events the hook registers handlers for. -/
inductive ConnEvent where
  | connectEvt
  | connectErrorEvt
  | disconnectEvt (clientInitiated : Bool)
  | reconnectEvt
  | reconnectFailedEvt
  deriving DecidableEq, Repr

/-- One handler invocation, transcribed from the `newSocket.on(...)`
registrations: `connect` sets connected and resets the attempt counter;
`connect_error` clears connected, sets `error`, increments the counter,
and at the cap sets `failed` and calls `newSocket.disconnect()`;
`disconnect` clears connected and sets `disconnected` for an intentional
(`io client disconnect`) reason and `reconnecting` otherwise;
`reconnect` sets connected and resets the counter; `reconnect_failed`
sets `failed`. -/
def connStep (s : ConnState) : ConnEvent → ConnState
  | .connectEvt =>
    { s with isConnected := true, status := .connected, attempts := 0 }
  | .connectErrorEvt =>
    let s1 := { s with isConnected := false, status := .errorStatus,
                       attempts := s.attempts + 1 }
    if s1.attempts ≥ maxReconnectAttempts then
      { s1 with status := .failed, tornDown := true }
    else s1
  | .disconnectEvt clientInitiated =>
    if clientInitiated then
      { s with isConnected := false, status := .disconnected }
    else
      { s with isConnected := false, status := .reconnecting }
  | .reconnectEvt =>
    { s with isConnected := true, status := .connected, attempts := 0 }
  | .reconnectFailedEvt =>
    { s with status := .failed }

/-- Folding a sequence of delivered transport events. -/
def connRun (s : ConnState) : List ConnEvent → ConnState
  | [] => s
  | e :: es => connRun (connStep s e) es

/-- A sequence of transport events is deliverable only while the
transport has not been torn down: after `socket.disconnect()` socket.io
raises no further lifecycle events (in particular, no automatic
reconnect attempt). -/
def validRun (s : ConnState) : List ConnEvent → Bool
  | [] => true
  | e :: es => !s.tornDown && validRun (connStep s e) es

/-- The hook's state on entering `connect()`: status set to
`connecting`, counter still 0, transport up. -/
def connectingState : ConnState :=
  { status := .connecting, isConnected := false, attempts := 0, tornDown := false }

/-- The errors `sendQuery` rejects with. -/
inductive SendError where
  | notConnected
  | emptyQuery
  deriving DecidableEq, Repr

/-- The events the hook emits on the socket. -/
inductive OutEvent where
  | userQuery (query : String) (sessionId : Option String)
  | createSession (sessionId : String)
  | pingEvt
  deriving DecidableEq, Repr

/-- How the promise returned by `sendQuery` settles: rejected with an
error, or resolved (with no payload — resolution signals submission,
not an answer). -/
inductive SendResult where
  | rejected (e : SendError)
  | resolved
  deriving DecidableEq, Repr

/-- What a call to `sendQuery` does: the settled promise and the events
emitted on the transport during the call. -/
structure SendOutcome where
  result : SendResult
  emitted : List OutEvent
  deriving DecidableEq, Repr

/-- The slice of hook state `sendQuery` reads: whether a socket object
exists, `isConnected`, and `currentSessionId`. -/
structure SocketView where
  hasSocket : Bool
  isConnected : Bool
  currentSessionId : Option String
  deriving DecidableEq, Repr

/-- Embedding of `sendQuery(query)`: rejects `Not connected to server` when
`!socket || !isConnected`; rejects `Query cannot be empty` when the
trimmed query is empty (`!query.trim()`); otherwise emits one
`user-query` event carrying the trimmed query and the current session
id, and resolves.  A rejection emits nothing. -/
def sendQuery (st : SocketView) (query : String) : SendOutcome :=
  if !st.hasSocket || !st.isConnected then
    { result := .rejected .notConnected, emitted := [] }
  else if jsTrim query = "" then
    { result := .rejected .emptyQuery, emitted := [] }
  else
    { result := .resolved, emitted := [.userQuery (jsTrim query) st.currentSessionId] }

/-! ## Response envelope and renderer (`DataSummaryResult.jsx`) -/

/-- The response envelope destructured from `data`.  String and numeric
fields may be absent (`none`). -/
structure ResponseEnvelope where
  success : Bool
  html_summary : Option String := none
  key_insights : Option (List String) := none
  markdown_data : Option String := none
  summary_time_ms : Option Nat := none
  prompt_tokens : Option Nat := none
  completion_tokens : Option Nat := none
  data_points_analyzed : Option Nat := none
  errorField : Option String := none
  summary : Option String := none
  deriving DecidableEq, Repr

/-- JavaScript truthiness of an optional string field: present and
nonempty. -/
def strTruthy : Option String → Bool
  | some s => s ≠ ""
  | none => false

/-- JavaScript `a || b` where `a` is an optional string field: falls
through to `b` when `a` is absent or empty. -/
def jsOrStr (a : Option String) (b : String) : String :=
  match a with
  | some s => if s = "" then b else s
  | none => b

/-- The default text of the error block. -/
def defaultErrorText : String :=
  "An unknown error occurred while processing your request."

/-- The text of the error block:
`{error || summary || 'An unknown error occurred while processing your request.'}`. -/
def errorDisplayText (e : ResponseEnvelope) : String :=
  jsOrStr e.errorField (jsOrStr e.summary defaultErrorText)

/-- The sentinel string the renderer suppresses instead of rendering as
a table. -/
def noTableSentinel : String :=
  "No data table available for non-analytics queries"

/-- The sections of the success branch of the response body, in render
order, each guarded as in the source. -/
inductive ResponseSection where
  | htmlSummarySection (sanitized : Html)
  | keyInsightsSection (insights : List String)
  | dataTableSection (tableHtmlOut : String)
  | plainSummarySection (text : String)

/-- The rendered response body: the success branch's section list, or
the error block with its text. -/
inductive RenderedBody where
  | successBody (sections : List ResponseSection)
  | errorBody (text : String)

/-- The success branch: the HTML summary section when `html_summary` is
truthy (its fragment sanitised; `parseHtml` stands for the DOM parse, so
the section records the sanitised forest of the parsed fragment); the
insights section when `key_insights` is present and nonempty; the data
table section when `markdown_data` is truthy and differs from the
sentinel; and the plain-summary fallback when `html_summary` is falsy
and `summary` truthy. -/
def successSections (parseHtml : String → Html)
    (e : ResponseEnvelope) : List ResponseSection :=
  (if strTruthy e.html_summary then
      [ResponseSection.htmlSummarySection
        (sanitizeHtml (parseHtml (e.html_summary.getD "")))]
    else [])
  ++ (match e.key_insights with
      | some l => if l.length > 0 then [ResponseSection.keyInsightsSection l] else []
      | none => [])
  ++ (if strTruthy e.markdown_data
        && !(e.markdown_data.getD "" == noTableSentinel) then
        [ResponseSection.dataTableSection
          (convertMarkdownToTable (e.markdown_data.getD ""))]
      else [])
  ++ (if !(strTruthy e.html_summary) && strTruthy e.summary then
        [ResponseSection.plainSummarySection (e.summary.getD "")]
      else [])

/-- The response body: `success ?` the section list `:` the error
block. -/
def renderDataSummary (parseHtml : String → Html)
    (e : ResponseEnvelope) : RenderedBody :=
  if e.success then .successBody (successSections parseHtml e)
  else .errorBody (errorDisplayText e)

/-- Whether a rendered section is the data-table section. -/
def isDataTableSec : ResponseSection → Bool
  | .dataTableSection _ => true
  | _ => false

/-- Whether the data-table section appears in the rendered body. -/
def hasDataTableSection : RenderedBody → Bool
  | .successBody sections => sections.any isDataTableSec
  | .errorBody _ => false

/-! ## Conversation controller (`App.jsx`) -/

/-- The field `message.type` in the chat log. -/
inductive MsgKind where
  | user
  | assistant
  | errorMsg
  deriving DecidableEq, Repr

/-- The field `message.content`: a string for user and error messages, the
response envelope for assistant messages. -/
inductive MsgContent where
  | text (s : String)
  | envelope (e : ResponseEnvelope)
  deriving DecidableEq, Repr

/-- A chat message: `{ id, type, content, timestamp }` with
`Date.now()` modelled as a `Nat` supplied by the caller. -/
structure Message where
  id : Nat
  kind : MsgKind
  content : MsgContent
  timestamp : Nat
  deriving DecidableEq, Repr

/-- The controller state the claims are about: the ordered message log,
`isLoading`, the current input, and whether the safety timeout is
armed (`loadingTimeoutRef.current !== null`). -/
structure AppState where
  messages : List Message
  isLoading : Bool
  currentInput : String
  timerArmed : Bool
  deriving DecidableEq, Repr

/-- The side effects `handleSendMessage` requests besides its state
update. -/
inductive AppAction where
  | clearTimerAction
  | armTimerAction (durationMs : Nat)
  | dispatchQuery (query : String)
  deriving DecidableEq, Repr

/-- The string `'Request timed out. Please try again.'` -/
def timeoutNoticeText : String := "Request timed out. Please try again."

/-- The string `'Failed to send message. Please try again.'` -/
def sendFailedText : String := "Failed to send message. Please try again."

/-- The synchronous part of `handleSendMessage(message)`: a no-op when
`!message.trim() || !isConnected`; otherwise sets loading, appends the
user message, clears the input, clears any existing safety timeout,
arms the 30000 ms safety timeout and dispatches `sendQuery(message)`. -/
def handleSendMessage (now : Nat) (isConnected : Bool) (message : String)
    (s : AppState) : AppState × List AppAction :=
  if jsTrim message = "" || !isConnected then (s, [])
  else
    ({ messages := s.messages
         ++ [{ id := now, kind := .user, content := .text message,
               timestamp := now }],
       isLoading := true,
       currentInput := "",
       timerArmed := true },
     (if s.timerArmed then [AppAction.clearTimerAction] else [])
       ++ [AppAction.armTimerAction 30000, AppAction.dispatchQuery message])

/-- The safety-timeout callback: clears loading, disarms the timer, and
appends one error message with the timeout notice (`id = Date.now() + 2`). -/
def onSafetyTimeout (now : Nat) (s : AppState) : AppState :=
  { s with isLoading := false,
           timerArmed := false,
           messages := s.messages
             ++ [{ id := now + 2, kind := .errorMsg,
                   content := .text timeoutNoticeText, timestamp := now }] }

/-- Embedding of `handleQueryResponse(data)`: clears the timeout and loading state
and appends an assistant message wrapping the envelope, with no check
that a query is still pending. -/
def handleQueryResponse (now : Nat) (data : ResponseEnvelope)
    (s : AppState) : AppState :=
  { s with isLoading := false,
           timerArmed := false,
           messages := s.messages
             ++ [{ id := now, kind := .assistant,
                   content := .envelope data, timestamp := now }] }

/-- Embedding of `handleQueryError(data)`: clears the timeout and loading state and
appends an error message with `data.error ||` a default text. -/
def handleQueryError (now : Nat) (errText : Option String)
    (s : AppState) : AppState :=
  { s with isLoading := false,
           timerArmed := false,
           messages := s.messages
             ++ [{ id := now, kind := .errorMsg,
                   content := .text (jsOrStr errText
                     "An error occurred while processing your request."),
                   timestamp := now }] }

/-! ## Concrete inputs used by the claims -/

/-- The state reached from `connecting` after five `connect_error`
events. -/
def failedAfterFive : ConnState :=
  connRun connectingState (List.replicate 5 .connectErrorEvt)

/-- The spec's sanitizer example
`<script>alert(1)</script><p onclick="x()">hi</p><a href="javascript:x()">l</a>`,
parsed. -/
def xssExampleFragment : Html :=
  .elemCons "script" [] (.textCons "alert(1)" .nil)
    (.elemCons "p" [("onclick", "x()")] (.textCons "hi" .nil)
      (.elemCons "a" [("href", "javascript:x()")] (.textCons "l" .nil) .nil))

/-- A failed envelope whose `error` field is present but empty and
whose `summary` is nonempty. -/
def emptyErrorEnvelope : ResponseEnvelope :=
  { success := false, errorField := some "", summary := some "boom" }

/-- A successful envelope whose `markdown_data` field is present but
empty. -/
def emptyTableEnvelope : ResponseEnvelope :=
  { success := true, markdown_data := some "" }

/-! ## Helper lemmas -/

/-- Every attribute surviving `cleanAttrs` is safe. -/
theorem cleanAttrs_attrsSafe (attrs : List (String × String)) :
    attrsSafe (cleanAttrs attrs) = true := by
  simp only [attrsSafe, List.all_eq_true]
  intro a ha
  have h2 := List.of_mem_filter ha
  have h1 := List.of_mem_filter (List.mem_of_mem_filter ha)
  simp only [Bool.and_eq_true]
  exact ⟨h1, h2⟩

/-- The `sanitizeNodes` output passes the `nodesSafe` check. -/
theorem sanitizeNodes_nodesSafe (ns : Html) :
    nodesSafe (sanitizeNodes ns) = true := by
  induction ns with
  | nil => rfl
  | textCons s rest ih => simpa [sanitizeNodes, nodesSafe] using ih
  | elemCons tag attrs children rest ihc ihr =>
    rw [sanitizeNodes]
    cases hdang : dangerousElements.contains tag with
    | true => simp [hdang, ihr]
    | false =>
      simp [hdang, nodesSafe, ihc, ihr, cleanAttrs_attrsSafe]
      simpa using hdang

/-- Lemma: `List.any` over a conditionally-present singleton. -/
theorem any_ite_singleton {α : Type} (b : Bool) (x : α) (f : α → Bool) :
    (if b then [x] else []).any f = (b && f x) := by
  cases b <;> simp

/-- The data-table section appears among the success sections exactly
when `markdown_data` is truthy and differs from the sentinel. -/
theorem successSections_dataTable (parseHtml : String → Html)
    (e : ResponseEnvelope) :
    (successSections parseHtml e).any isDataTableSec
      = (strTruthy e.markdown_data
          && !(e.markdown_data.getD "" == noTableSentinel)) := by
  cases hki : e.key_insights with
  | none =>
    simp [successSections, List.any_append, any_ite_singleton, isDataTableSec, hki]
    split_ifs <;> simp_all [isDataTableSec, strTruthy]
  | some l =>
    simp [successSections, List.any_append, any_ite_singleton, isDataTableSec, hki]
    split_ifs <;> simp_all [isDataTableSec, strTruthy]

/-! ## Claims -/

/-- C1: from `connecting`, 5 consecutive `connect_error` events drive
the connection state to `failed` with the transport torn down, after
which no event sequence is deliverable (so no automatic reconnect can
occur and the state stays `failed`); the attempt counter is incremented
on every `connect_error` and reset to 0 by the `reconnect` and
`connect` handlers, both of which enter `connected`. -/
theorem c1_connect_error_cap :
    failedAfterFive.status = .failed
    ∧ failedAfterFive.tornDown = true
    ∧ failedAfterFive.attempts = 5
    ∧ (∀ es : List ConnEvent, validRun failedAfterFive es = true →
        es = [] ∧ connRun failedAfterFive es = failedAfterFive)
    ∧ (∀ s : ConnState, (connStep s .connectErrorEvt).attempts = s.attempts + 1)
    ∧ (∀ s : ConnState, (connStep s .reconnectEvt).attempts = 0
        ∧ (connStep s .reconnectEvt).status = .connected)
    ∧ (∀ s : ConnState, (connStep s .connectEvt).attempts = 0
        ∧ (connStep s .connectEvt).status = .connected) := by
  refine ⟨rfl, rfl, rfl, ?_, ?_, ?_, ?_⟩
  · intro es h
    cases es with
    | nil => exact ⟨rfl, rfl⟩
    | cons e es =>
      exfalso
      have ht : failedAfterFive.tornDown = true := rfl
      simp [validRun, ht] at h
  · intro s
    simp [connStep]
    split <;> rfl
  · intro s
    exact ⟨rfl, rfl⟩
  · intro s
    exact ⟨rfl, rfl⟩

/-- Witness for C1: the empty continuation is deliverable from the
post-cap state, and the theorem instantiates on it. -/
theorem c1_connect_error_cap_witness :
    ([] : List ConnEvent) = [] ∧ connRun failedAfterFive [] = failedAfterFive :=
  c1_connect_error_cap.2.2.2.1 [] rfl

/-- C2: `sendQuery` rejects with the not-connected error and emits
nothing whenever the socket is absent or not connected; rejects with
the empty-query error and emits nothing when connected but the trimmed
text is empty; and otherwise emits exactly one `user-query` event
carrying the trimmed text and the current session id and resolves. -/
theorem c2_sendQuery_spec (st : SocketView) (q : String) :
    (st.hasSocket = false ∨ st.isConnected = false →
      sendQuery st q = { result := .rejected .notConnected, emitted := [] })
    ∧ (st.hasSocket = true → st.isConnected = true → jsTrim q = "" →
      sendQuery st q = { result := .rejected .emptyQuery, emitted := [] })
    ∧ (st.hasSocket = true → st.isConnected = true → jsTrim q ≠ "" →
      sendQuery st q =
        { result := .resolved,
          emitted := [.userQuery (jsTrim q) st.currentSessionId] }) := by
  refine ⟨?_, ?_, ?_⟩
  · intro h
    rcases h with h | h <;> simp [sendQuery, h]
  · intro h1 h2 h3
    simp [sendQuery, h1, h2, h3]
  · intro h1 h2 h3
    simp [sendQuery, h1, h2, h3]

/-- Witness for C2: each branch applied at a concrete input. -/
theorem c2_sendQuery_spec_witness :
    sendQuery { hasSocket := false, isConnected := false, currentSessionId := none } "x"
      = { result := .rejected .notConnected, emitted := [] }
    ∧ sendQuery { hasSocket := true, isConnected := true, currentSessionId := some "s" } "  "
      = { result := .rejected .emptyQuery, emitted := [] }
    ∧ sendQuery { hasSocket := true, isConnected := true, currentSessionId := some "s" } " hi "
      = { result := .resolved, emitted := [.userQuery (jsTrim " hi ") (some "s")] } :=
  ⟨(c2_sendQuery_spec _ "x").1 (Or.inl rfl),
   (c2_sendQuery_spec _ "  ").2.1 rfl rfl (by decide),
   (c2_sendQuery_spec _ " hi ").2.2 rfl rfl (by decide)⟩

/-- C3: an emitted data row always has exactly `headers.length` cells —
cell `i` is the row's `i`-th parsed cell when it exists and `''`
otherwise, so extra cells are dropped and missing trailing cells render
empty; each emitted row's HTML is exactly one `<td>` (HTML-escaping its
value) per normalised cell, and each header is escaped in its `<th>`;
concretely, a 3-cell row under a 2-column header renders 2 cells, a
1-cell row under a 3-column header renders 3 cells with 2 empty, and a
cell `<y>&` is escaped end to end. -/
theorem c3_row_normalisation :
    (∀ headers cells : List String,
      (rowCells headers cells).length = headers.length)
    ∧ (∀ headers cells : List String, ∀ i : Nat,
      (rowCells headers cells).getD i ""
        = if i < headers.length then cells.getD i "" else "")
    ∧ (∀ markdown : String, ∀ row ∈ tableRows markdown,
      row.length = (parsedHeaders markdown).length)
    ∧ (∀ headers : List String, ∀ idx : Nat, ∀ line : String,
      ∀ cells : List String, rowOfLine headers line = some cells →
      renderRowHtml headers idx line
        = "<tr class=\"" ++ (if idx % 2 = 0 then "bg-white" else "bg-gray-50")
            ++ " hover:bg-gray-100\">" ++ String.join (cells.map tdHtml)
            ++ "</tr>")
    ∧ (∀ h : String, thHtml h
        = "<th class=\"bg-gray-50 text-left font-semibold text-gray-900 px-4 py-3 border-b border-gray-200\">"
            ++ escapeHtml h ++ "</th>")
    ∧ tableRows "a|b\n---\nx|y|z" = [["x", "y"]]
    ∧ tableRows "a|b|c\n---\nx" = [["x", "", ""]]
    ∧ tableRows "a|b\n---\nx|<y>&" = [["x", "<y>&"]]
    ∧ tdHtml "<y>&"
        = "<td class=\"px-4 py-3 border-b border-gray-200 text-gray-700\">&lt;y&gt;&amp;</td>" := by
  refine ⟨?_, ?_, ?_, ?_, fun h => rfl, by decide, by decide, by decide, by decide⟩
  · intro headers cells
    simp [rowCells]
  · intro headers cells i
    by_cases h : i < headers.length
    · simp [rowCells, List.getD_eq_getElem?_getD, List.getElem?_map,
        List.getElem?_range, h]
    · have hnone : (List.range headers.length)[i]? = none := by
        simp [List.getElem?_eq_none_iff, Nat.le_of_not_lt h]
      simp [rowCells, List.getD_eq_getElem?_getD, List.getElem?_map, hnone, h]
  · intro markdown row hrow
    simp only [tableRows, List.mem_filterMap] at hrow
    obtain ⟨line, -, hline⟩ := hrow
    unfold rowOfLine at hline
    split at hline
    · cases hline
    · split at hline
      · cases hline
        simp [rowCells]
      · cases hline
  · intro headers idx line cells hcells
    unfold renderRowHtml
    rw [hcells]

/-- Witness for C3: the general facts applied on the 2-column /
3-cell example. -/
theorem c3_row_normalisation_witness :
    (["x", "y"] : List String).length
      = (parsedHeaders "a|b\n---\nx|y|z").length
    ∧ renderRowHtml ["a", "b"] 0 "x|y|z"
      = "<tr class=\"" ++ "bg-white" ++ " hover:bg-gray-100\">"
          ++ String.join ([rowCells ["a", "b"]
              ["x", "y", "z"]].headD [] |>.map tdHtml) ++ "</tr>" :=
  ⟨c3_row_normalisation.2.2.1 "a|b\n---\nx|y|z" ["x", "y"] (by decide),
   c3_row_normalisation.2.2.2.1 ["a", "b"] 0 "x|y|z"
     (rowCells ["a", "b"] ["x", "y", "z"]) (by decide)⟩

/-- C4 as stated is false at the empty string: `""` has fewer than 2
trimmed lines, yet `convertMarkdownToTable ""` is the static
no-table-data paragraph, not the escaped-input preformatted fallback
(the `!markdown` falsy guard fires first). -/
theorem c4_counterexample :
    (tableLines "").length < 2
    ∧ convertMarkdownToTable "" ≠ rawFallback ""
    ∧ convertMarkdownToTable "" = noTableDataMsg :=
  ⟨by decide, by decide, rfl⟩

/-- C4 (amended): for every nonempty input with fewer than 2 trimmed
lines, and for every nonempty input whose headers resolve to zero
columns, `convertMarkdownToTable` returns the raw-text fallback; the
empty string returns the no-table-data paragraph.  (The embedded
renderer is a total function, so nothing can throw to the caller; the
source's `catch` branch, which would return the same raw-text
fallback, is unreachable.) -/
theorem c4_fallback (markdown : String) :
    (markdown ≠ "" → (tableLines markdown).length < 2 →
      convertMarkdownToTable markdown = rawFallback markdown)
    ∧ (markdown ≠ "" → (parsedHeaders markdown).length = 0 →
      convertMarkdownToTable markdown = rawFallback markdown)
    ∧ (markdown = "" → convertMarkdownToTable markdown = noTableDataMsg) := by
  refine ⟨?_, ?_, ?_⟩
  · intro h1 h2
    simp [convertMarkdownToTable, h1, h2]
  · intro h1 h2
    by_cases hl : (tableLines markdown).length < 2
    · simp [convertMarkdownToTable, h1, hl]
    · simp [convertMarkdownToTable, h1, hl, h2]
  · intro h
    subst h
    rfl

/-- Witness for C4: the one-line input `abc` falls back, and the empty
string yields the paragraph. -/
theorem c4_fallback_witness :
    convertMarkdownToTable "abc" = rawFallback "abc"
    ∧ convertMarkdownToTable "" = noTableDataMsg :=
  ⟨(c4_fallback "abc").1 (by decide) (by decide), (c4_fallback "").2.2 rfl⟩

/-- C5: the sanitizer's output never contains an element of tag kind
`script`/`iframe`/`object`/`embed`/`link`/`style`, an
`onload`/`onerror`/`onclick`/`onmouseover`/`onfocus`/`onblur`
attribute, or an `href`/`src` attribute whose value starts with the
case-sensitive prefix `javascript:` — at any depth
(`nodesSafe` checks all of this recursively); on the spec's example
fragment, the `script` element is removed wholesale, the `onclick`
attribute and the `javascript:` href are stripped. -/
theorem c5_sanitizer_safe :
    (∀ fragment : Html, nodesSafe (sanitizeHtml fragment) = true)
    ∧ sanitizeHtml xssExampleFragment
        = .elemCons "p" [] (.textCons "hi" .nil)
            (.elemCons "a" [] (.textCons "l" .nil) .nil) :=
  ⟨sanitizeNodes_nodesSafe, rfl⟩

/-- C6: firing the safety timeout clears loading and appends exactly
one error message carrying the timeout notice; a `query_response`
arriving afterwards is still processed — it appends a new assistant
message wrapping the envelope, and is never discarded. -/
theorem c6_timeout_then_late_response (s : AppState) (now later : Nat)
    (d : ResponseEnvelope) :
    (onSafetyTimeout now s).isLoading = false
    ∧ (onSafetyTimeout now s).messages
        = s.messages ++ [{ id := now + 2, kind := .errorMsg,
                           content := .text timeoutNoticeText, timestamp := now }]
    ∧ (onSafetyTimeout now s).messages.length = s.messages.length + 1
    ∧ (handleQueryResponse later d (onSafetyTimeout now s)).messages
        = (onSafetyTimeout now s).messages
            ++ [{ id := later, kind := .assistant, content := .envelope d,
                  timestamp := later }]
    ∧ (handleQueryResponse later d (onSafetyTimeout now s)).isLoading = false := by
  refine ⟨rfl, rfl, ?_, rfl, rfl⟩
  simp [onSafetyTimeout]

/-- C7: `convertSnakeCaseToTitle` returns non-string values and
underscore-free strings unchanged, and on snake_case strings strips
edge underscores, collapses runs, capitalizes segments and joins with
spaces — witnessed by the spec's four test vectors.  (The embedded
function is total, so it never throws.) -/
theorem c7_snakeToTitle (v : JSVal) (s : String) :
    ((∀ t : String, v ≠ .str t) → convertSnakeCaseToTitleVal v = v)
    ∧ (s.toList.contains '_' = false → convertSnakeCaseToTitle s = s)
    ∧ convertSnakeCaseToTitle "data_points_analyzed" = "Data Points Analyzed"
    ∧ convertSnakeCaseToTitle "" = ""
    ∧ convertSnakeCaseToTitle "noUnderscore" = "noUnderscore"
    ∧ convertSnakeCaseToTitle "__a__b__" = "A B" := by
  refine ⟨?_, ?_, by decide, rfl, by decide, by decide⟩
  · intro h
    cases v with
    | str t => exact absurd rfl (h t)
    | num n => rfl
    | boolean b => rfl
    | nullVal => rfl
    | undefinedVal => rfl
  · intro h
    unfold convertSnakeCaseToTitle
    by_cases he : s = ""
    · simp [he]
    · simp only [he, if_false, h, Bool.not_false, if_true]

/-- Witness for C7: a non-string value and an underscore-free string
pass through unchanged. -/
theorem c7_snakeToTitle_witness :
    convertSnakeCaseToTitleVal (.num 3) = .num 3
    ∧ convertSnakeCaseToTitle "noUnderscore" = "noUnderscore" :=
  ⟨(c7_snakeToTitle (.num 3) "x").1 (fun t h => JSVal.noConfusion h),
   (c7_snakeToTitle (.num 3) "noUnderscore").2.1 (by decide)⟩

/-- C8 as stated is false when `error` is present but empty: on a
failed envelope with `error = ""` and `summary = "boom"`, the error
block shows `"boom"` (the `error || summary || default` chain treats
the empty string as falsy), not the envelope's `error`. -/
theorem c8_counterexample :
    emptyErrorEnvelope.errorField = some ""
    ∧ renderDataSummary (fun _ => .nil) emptyErrorEnvelope = .errorBody "boom"
    ∧ ("boom" : String) ≠ "" :=
  ⟨rfl, rfl, by decide⟩

/-- C8 (amended): the error block is rendered exactly when `success`
is false, and its text is the envelope's `error`, falling back to
`summary` when `error` is absent **or empty**, falling back to the
generic default when both are absent or empty. -/
theorem c8_error_block (parseHtml : String → Html) (e : ResponseEnvelope) :
    ((∃ t, renderDataSummary parseHtml e = .errorBody t) ↔ e.success = false)
    ∧ (e.success = false →
        renderDataSummary parseHtml e = .errorBody (errorDisplayText e))
    ∧ (∀ s, e.errorField = some s → s ≠ "" → errorDisplayText e = s)
    ∧ ((e.errorField = none ∨ e.errorField = some "") →
        ∀ t, e.summary = some t → t ≠ "" → errorDisplayText e = t)
    ∧ ((e.errorField = none ∨ e.errorField = some "") →
        (e.summary = none ∨ e.summary = some "") →
        errorDisplayText e = defaultErrorText) := by
  refine ⟨?_, ?_, ?_, ?_, ?_⟩
  · cases hsucc : e.success <;> simp [renderDataSummary, hsucc]
  · intro h
    simp [renderDataSummary, h]
  · intro s hs hne
    simp [errorDisplayText, jsOrStr, hs, hne]
  · intro h t ht hne
    rcases h with h | h <;> simp [errorDisplayText, jsOrStr, h, ht, hne]
  · intro h1 h2
    rcases h1 with h1 | h1 <;> rcases h2 with h2 | h2 <;>
      simp [errorDisplayText, jsOrStr, h1, h2]

/-- Witness for C8: a nonempty `error` is shown as-is. -/
theorem c8_error_block_witness :
    errorDisplayText
        ({ success := false, errorField := some "E" } : ResponseEnvelope)
      = "E" :=
  (c8_error_block (fun _ => .nil) _).2.2.1 "E" rfl (by decide)

/-- C9: `handleSendMessage` is a no-op when the trimmed text is empty
or the client is not connected — the whole state (message log, loading
flag, input, timer) is unchanged and no action (timer arming, query
dispatch) is requested. -/
theorem c9_submit_noop (now : Nat) (isConnected : Bool) (message : String)
    (s : AppState) (h : jsTrim message = "" ∨ isConnected = false) :
    handleSendMessage now isConnected message s = (s, []) := by
  unfold handleSendMessage
  rcases h with h | h <;> simp [h]

/-- Witness for C9: submitting whitespace while connected changes
nothing. -/
theorem c9_submit_noop_witness :
    handleSendMessage 7 true "   "
        { messages := [], isLoading := false, currentInput := "", timerArmed := false }
      = ({ messages := [], isLoading := false, currentInput := "", timerArmed := false }, []) :=
  c9_submit_noop 7 true "   " _ (Or.inl (by decide))

/-- C10 as stated is false when `markdown_data` is present but empty:
a successful envelope with `markdown_data = ""` carries the field
(present, and not the sentinel), yet no data-table section is rendered
(the `markdown_data &&` guard treats the empty string as falsy). -/
theorem c10_counterexample :
    emptyTableEnvelope.markdown_data.isSome = true
    ∧ emptyTableEnvelope.markdown_data ≠ some noTableSentinel
    ∧ hasDataTableSection (renderDataSummary (fun _ => .nil) emptyTableEnvelope)
        = false :=
  ⟨rfl, by decide, rfl⟩

/-- C10 (amended): on a successful envelope, the data-table section is
rendered exactly when `markdown_data` is present, **nonempty**, and
not equal (character for character) to the sentinel string; in
particular an envelope carrying exactly the sentinel renders no table
section. -/
theorem c10_data_table_guard (parseHtml : String → Html)
    (e : ResponseEnvelope) (hs : e.success = true) :
    (hasDataTableSection (renderDataSummary parseHtml e) = true ↔
      ∃ md, e.markdown_data = some md ∧ md ≠ "" ∧ md ≠ noTableSentinel)
    ∧ (e.markdown_data = some noTableSentinel →
      hasDataTableSection (renderDataSummary parseHtml e) = false) := by
  have hred : renderDataSummary parseHtml e
      = .successBody (successSections parseHtml e) := by
    simp [renderDataSummary, hs]
  rw [hred]
  have hany : hasDataTableSection (.successBody (successSections parseHtml e))
      = (strTruthy e.markdown_data
          && !(e.markdown_data.getD "" == noTableSentinel)) := by
    rw [hasDataTableSection, successSections_dataTable]
  rw [hany]
  constructor
  · constructor
    · intro h
      rcases hmd : e.markdown_data with _ | md
      · rw [hmd] at h
        simp [strTruthy] at h
      · rw [hmd] at h
        simp [strTruthy] at h
        exact ⟨md, rfl, h.1, h.2⟩
    · rintro ⟨md, hmd, hne, hns⟩
      simp [hmd, strTruthy, hne, hns]
  · intro hmd
    simp [hmd, strTruthy]

/-- Witness for C10: a successful envelope with a nonempty,
non-sentinel table renders the section. -/
theorem c10_data_table_guard_witness :
    hasDataTableSection (renderDataSummary (fun _ => .nil)
        { success := true, markdown_data := some "a|b\n---\n1|2" }) = true :=
  ((c10_data_table_guard (fun _ => .nil) _ rfl).1).mpr
    ⟨"a|b\n---\n1|2", rfl, by decide, by decide⟩

end PaymentDataAI
